import Mathlib

/-!
Verification of the request-execution pipeline of the llm-proxy service
(`src/llm_router`): the backoff retry engine (`utils/retry.py`), the
streaming relay (`utils/streaming.py`), the header rewrite engine
(`middleware/headers.py`), the content transform pipeline
(`middleware/transform.py`) and the provider transport's streaming path
(`clients/base.py`).

The Python code is shallowly embedded: every repository function is
translated into an executable Lean definition.  External collaborators
(the `re` regex engine, `jsonpath_ng`, `json.loads`, the `httpx`
transport) are modelled at their interface boundary, as function-valued
parameters or fields, exactly where the source calls out of the
repository.  Python exceptions become `Except`/sum results, `await`
points become entries in an explicit trace, and `dict`s become ordered
association lists with Python `dict` semantics.
-/

namespace LLMRouter

/-! ## Ordered string-keyed dictionaries (Python `dict` semantics)

Lookup finds the first binding, assignment replaces the binding in place
keeping its position (appending when the key is absent), deletion removes
the binding.  Python dictionaries cannot hold duplicate keys; the lemmas
below nevertheless hold for arbitrary association lists. -/

def dget {α : Type} : List (String × α) → String → Option α
  | [], _ => none
  | (k', v) :: rest, k => if k' = k then some v else dget rest k

def dcontains {α : Type} (d : List (String × α)) (k : String) : Bool :=
  (dget d k).isSome

/-- Python `d[k] = v`: replace in place if present, else append. -/
def dinsert {α : Type} : List (String × α) → String → α → List (String × α)
  | [], k, v => [(k, v)]
  | (k', v') :: rest, k, v =>
    if k' = k then (k', v) :: rest else (k', v') :: dinsert rest k v

/-- Python `del d[k]` (no-op when the key is absent; the callers guard
with a containment check first). -/
def dremove {α : Type} : List (String × α) → String → List (String × α)
  | [], _ => []
  | (k', v') :: rest, k =>
    if k' = k then rest else (k', v') :: dremove rest k

theorem dget_dinsert_self {α : Type} (d : List (String × α)) (k : String) (v : α) :
    dget (dinsert d k v) k = some v := by
  induction d with
  | nil => simp [dinsert, dget]
  | cons kv rest ih =>
    obtain ⟨k', v'⟩ := kv
    by_cases h : k' = k
    · simp [dinsert, dget, h]
    · simp [dinsert, dget, h, ih]

theorem dget_dinsert_ne {α : Type} (d : List (String × α)) (k' k : String) (v : α)
    (h : k' ≠ k) : dget (dinsert d k' v) k = dget d k := by
  induction d with
  | nil => simp [dinsert, dget, h]
  | cons kv rest ih =>
    obtain ⟨k0, v0⟩ := kv
    by_cases h0 : k0 = k'
    · subst h0
      simp [dinsert, dget, h]
    · by_cases h1 : k0 = k
      · simp [dinsert, dget, h0, h1, Ne.symm h]
      · simp [dinsert, dget, h0, h1, ih]

theorem dget_foldl_dinsert_of_not_mem {α : Type} (l : List (String × α))
    (d : List (String × α)) (k : String) (h : ∀ p ∈ l, p.1 ≠ k) :
    dget (l.foldl (fun r kv => dinsert r kv.1 kv.2) d) k = dget d k := by
  induction l generalizing d with
  | nil => simp
  | cons kv rest ih =>
    simp only [List.foldl_cons]
    rw [ih (dinsert d kv.1 kv.2) (fun p hp => h p (List.mem_cons_of_mem _ hp))]
    exact dget_dinsert_ne d kv.1 k kv.2 (h kv (List.mem_cons_self _ _))

theorem dget_foldl_dinsert_of_mem {α : Type} (l : List (String × α))
    (d : List (String × α)) (k : String) (v : α)
    (hnd : (l.map Prod.fst).Nodup) (hmem : (k, v) ∈ l) :
    dget (l.foldl (fun r kv => dinsert r kv.1 kv.2) d) k = some v := by
  induction l generalizing d with
  | nil => simp at hmem
  | cons kv rest ih =>
    simp only [List.map_cons, List.nodup_cons] at hnd
    rcases List.mem_cons.mp hmem with hhead | htail
    · subst hhead
      simp only [List.foldl_cons]
      rw [dget_foldl_dinsert_of_not_mem rest (dinsert d k v) k
        (fun p hp hk => hnd.1 (List.mem_map.mpr ⟨p, hp, hk⟩))]
      exact dget_dinsert_self d k v
    · simp only [List.foldl_cons]
      exact ih _ hnd.2 htail

/-! ## JSON values (`Dict[str, Any]` request bodies) -/

inductive JSON where
  | null : JSON
  | bool (b : Bool) : JSON
  | num (n : Int) : JSON
  | str (s : String) : JSON
  | arr (items : List JSON) : JSON
  | obj (fields : List (String × JSON)) : JSON

/-! ## Backoff retry engine (`utils/retry.py`)

`RetryConfig` is the validated configuration record from `config.py`
(floats are modelled as rationals; the numeric fields are exact in the
claims under verification).  An `Outcome` is what one invocation of the
wrapped attempt produces: an `httpx.Response`-like value, some other
value (the `else: return result` branch of `execute_with_retry`), or a
raised exception, classified by the `isinstance` tests the code
performs. -/

structure RetryConfig where
  max_retries : Nat
  retry_status_codes : List Nat
  backoff_factor : ℚ
  initial_delay : ℚ
  max_delay : ℚ
deriving DecidableEq, Repr

/-- The exception classes `RetryHandler.should_retry` can observe:
`httpx.ConnectError`, `httpx.TimeoutException`, `httpx.NetworkError`,
`httpx.HTTPStatusError` (raised by `raise_for_status`) and anything
else. -/
inductive ExcKind where
  | connectError : ExcKind
  | timeoutException : ExcKind
  | networkError : ExcKind
  | httpStatusError (status : Nat) : ExcKind
  | otherError (tag : String) : ExcKind
deriving DecidableEq, Repr

structure Resp where
  status : Nat
  body : String
deriving DecidableEq, Repr

inductive Outcome where
  | resp (r : Resp) : Outcome
  | nonResp (tag : String) : Outcome
  | raiseExc (e : ExcKind) : Outcome
deriving DecidableEq, Repr

/-- `RetryHandler.should_retry` (retry.py, lines 27-45): a response is
retried iff its status code is configured; an exception is retried iff it
is a connect/timeout/network-level `httpx` failure. -/
def should_retry (cfg : RetryConfig) (response : Option Resp)
    (exception : Option ExcKind) : Bool :=
  match response with
  | some r => cfg.retry_status_codes.contains r.status
  | none =>
    match exception with
    | some ExcKind.connectError => true
    | some ExcKind.timeoutException => true
    | some ExcKind.networkError => true
    | _ => false

/-- `RetryHandler.calculate_delay` (retry.py, lines 47-57). -/
def calculate_delay (cfg : RetryConfig) (attempt : Nat) : ℚ :=
  min (cfg.initial_delay * cfg.backoff_factor ^ attempt) cfg.max_delay

inductive RunResult where
  | returned (r : Resp) : RunResult
  | returnedValue (tag : String) : RunResult
  | raised (e : ExcKind) : RunResult
  | runtimeError : RunResult
deriving DecidableEq, Repr

/-- Observable trace of one `execute_with_retry` run: its outcome, the
`asyncio.sleep` durations in order, and how many times the wrapped
attempt was invoked. -/
structure RunTrace where
  result : RunResult
  delays : List ℚ
  calls : Nat
deriving DecidableEq, Repr

/-- The `for attempt in range(max_retries + 1)` loop of
`RetryHandler.execute_with_retry` (retry.py, lines 76-131), with `fuel`
iterations of the range remaining and `attempt` the next loop index.
The wrapped attempt is modelled as `f : Nat → Outcome`, giving the
outcome of its invocation in iteration `attempt`.  `fuel = 0` is the
code after the loop (lines 117-131). -/
def retryLoop (cfg : RetryConfig) (f : Nat → Outcome) :
    Nat → Nat → Option Resp → Option ExcKind → RunTrace
  | 0, _, lastResponse, lastException =>
    match lastResponse with
    | some r => ⟨RunResult.returned r, [], 0⟩
    | none =>
      match lastException with
      | some e => ⟨RunResult.raised e, [], 0⟩
      | none => ⟨RunResult.runtimeError, [], 0⟩
  | fuel + 1, attempt, lastResponse, lastException =>
    match f attempt with
    | Outcome.resp r =>
      if !should_retry cfg (some r) none then ⟨RunResult.returned r, [], 1⟩
      else if attempt < cfg.max_retries then
        let t := retryLoop cfg f fuel (attempt + 1) (some r) lastException
        ⟨t.result, calculate_delay cfg attempt :: t.delays, t.calls + 1⟩
      else
        -- no attempts remain: the loop body ends and the `for` loop
        -- proceeds to its termination test (then lines 117-122)
        let t := retryLoop cfg f fuel (attempt + 1) (some r) lastException
        ⟨t.result, t.delays, t.calls + 1⟩
    | Outcome.nonResp v => ⟨RunResult.returnedValue v, [], 1⟩
    | Outcome.raiseExc e =>
      if !should_retry cfg none (some e) then ⟨RunResult.raised e, [], 1⟩
      else if attempt < cfg.max_retries then
        let t := retryLoop cfg f fuel (attempt + 1) lastResponse (some e)
        ⟨t.result, calculate_delay cfg attempt :: t.delays, t.calls + 1⟩
      else ⟨RunResult.raised e, [], 1⟩

/-- `RetryHandler.execute_with_retry` (retry.py, lines 59-131). -/
def execute_with_retry (cfg : RetryConfig) (f : Nat → Outcome) : RunTrace :=
  retryLoop cfg f (cfg.max_retries + 1) 0 none none

/-- When every remaining attempt yields a retryable response, the loop
invokes each of them, sleeps `calculate_delay i` after every attempt
`i < max_retries`, and finally returns the response of the last
attempt. -/
theorem retryLoop_all_retryable (cfg : RetryConfig) (f : Nat → Outcome) :
    ∀ (k attempt : Nat) (lastR : Option Resp) (lastE : Option ExcKind),
      attempt + k = cfg.max_retries →
      (∀ i, attempt ≤ i → i ≤ cfg.max_retries →
        ∃ r, f i = Outcome.resp r ∧ should_retry cfg (some r) none = true) →
      ∃ r, f cfg.max_retries = Outcome.resp r ∧
        retryLoop cfg f (k + 1) attempt lastR lastE =
          ⟨RunResult.returned r,
           (List.range' attempt k).map (calculate_delay cfg), k + 1⟩ := by
  intro k
  induction k with
  | zero =>
    intro attempt lastR lastE hinv hall
    have hattempt : attempt = cfg.max_retries := by omega
    subst hattempt
    obtain ⟨r, hr, hretry⟩ := hall cfg.max_retries le_rfl le_rfl
    refine ⟨r, hr, ?_⟩
    rw [retryLoop, hr]
    simp [hretry, retryLoop, List.range', Nat.lt_irrefl]
  | succ k ih =>
    intro attempt lastR lastE hinv hall
    obtain ⟨r, hr, hretry⟩ := hall attempt le_rfl (by omega)
    obtain ⟨rlast, hrlast, hrec⟩ :=
      ih (attempt + 1) (some r) lastE (by omega)
        (fun i hi hile => hall i (by omega) hile)
    refine ⟨rlast, hrlast, ?_⟩
    have hlt : attempt < cfg.max_retries := by omega
    rw [retryLoop, hr]
    simp [hretry, hlt, hrec, List.range'_succ]

/-- C1: if every one of the `max_retries + 1` attempts returns a
response whose status code is in `retry_status_codes`, then
`execute_with_retry` invokes the attempt exactly `max_retries + 1`
times, sleeps `calculate_delay i = min (initial_delay * backoff_factor ^ i)
max_delay` seconds after each attempt `i < max_retries`, and returns the
last attempt's response as-is (status code and body preserved), raising
no exception. -/
theorem retry_exhaustion_returns_last_response (cfg : RetryConfig)
    (f : Nat → Outcome)
    (hall : ∀ i, i ≤ cfg.max_retries →
      ∃ r, f i = Outcome.resp r ∧ r.status ∈ cfg.retry_status_codes) :
    (∀ i, calculate_delay cfg i =
        min (cfg.initial_delay * cfg.backoff_factor ^ i) cfg.max_delay)
    ∧ ∃ r, f cfg.max_retries = Outcome.resp r ∧
        execute_with_retry cfg f =
          ⟨RunResult.returned r,
           (List.range cfg.max_retries).map (calculate_delay cfg),
           cfg.max_retries + 1⟩ := by
  refine ⟨fun i => rfl, ?_⟩
  obtain ⟨r, hr, hrun⟩ :=
    retryLoop_all_retryable cfg f cfg.max_retries 0 none none (by omega)
      (fun i _ hile => by
        obtain ⟨r, hr, hmem⟩ := hall i hile
        exact ⟨r, hr, by simpa [should_retry] using hmem⟩)
  exact ⟨r, hr, by simpa [execute_with_retry, List.range_eq_range'] using hrun⟩

/-- The retry policy of the spec's worked example:
`maxRetries=2, initialDelay=1, backoffFactor=2, maxDelay=10,
retryableStatusCodes={429}`. -/
def cfg429 : RetryConfig :=
  { max_retries := 2
    retry_status_codes := [429]
    backoff_factor := 2
    initial_delay := 1
    max_delay := 10 }

/-- An upstream that answers every attempt with status 429. -/
def attempts429 : Nat → Outcome :=
  fun _ => Outcome.resp ⟨429, "rate limited"⟩

/-- C1 witness: three consecutive 429 responses under `cfg429` yield
observed delays 1s then 2s and a returned (not raised) 429 response,
with no fourth attempt. -/
theorem retry_exhaustion_returns_last_response_witness :
    execute_with_retry cfg429 attempts429 =
      ⟨RunResult.returned ⟨429, "rate limited"⟩, [1, 2], 3⟩ := by
  obtain ⟨-, r, hr, hrun⟩ :=
    retry_exhaustion_returns_last_response cfg429 attempts429
      (fun i _ => ⟨⟨429, "rate limited"⟩, rfl, by decide⟩)
  have hr' : r = ⟨429, "rate limited"⟩ := by
    have h : Outcome.resp ⟨429, "rate limited"⟩ = Outcome.resp r := hr
    cases h
    rfl
  subst hr'
  rw [hrun]
  have h0 : calculate_delay cfg429 0 = 1 := by
    rw [calculate_delay]
    norm_num [cfg429, min_def]
  have h1 : calculate_delay cfg429 1 = 2 := by
    rw [calculate_delay]
    norm_num [cfg429, min_def]
  have hmr : cfg429.max_retries = 2 := rfl
  rw [hmr]
  simp [List.range_succ, h0, h1]

/-- C5: a non-retryable first outcome ends `execute_with_retry` at once,
with a single attempt and no sleep: a response whose status code is not
in `retry_status_codes` is returned as-is (never retried, never raised),
and a raised failure that is none of the connect/timeout/network-level
transport failures is propagated immediately. -/
theorem non_retryable_first_outcome_immediate (cfg : RetryConfig)
    (f : Nat → Outcome) :
    (∀ r, f 0 = Outcome.resp r → r.status ∉ cfg.retry_status_codes →
      execute_with_retry cfg f = ⟨RunResult.returned r, [], 1⟩)
    ∧ (∀ e, f 0 = Outcome.raiseExc e →
        e ≠ ExcKind.connectError → e ≠ ExcKind.timeoutException →
        e ≠ ExcKind.networkError →
        execute_with_retry cfg f = ⟨RunResult.raised e, [], 1⟩) := by
  constructor
  · intro r hr hnot
    have hcontains : cfg.retry_status_codes.contains r.status = false := by
      simpa using hnot
    have hsr : should_retry cfg (some r) none = false := by
      simp only [should_retry]
      exact hcontains
    simp [execute_with_retry, retryLoop, hr, hsr]
  · intro e he h1 h2 h3
    have hsr : should_retry cfg none (some e) = false := by
      cases e <;> simp_all [should_retry]
    simp [execute_with_retry, retryLoop, he, hsr]

/-- An upstream whose first answer is a plain 400 response. -/
def attempts400 : Nat → Outcome :=
  fun _ => Outcome.resp ⟨400, "bad request"⟩

/-- An upstream whose first invocation raises a non-network failure
(e.g. a `ValueError`). -/
def attemptsValueError : Nat → Outcome :=
  fun _ => Outcome.raiseExc (ExcKind.otherError "ValueError")

/-- C5 witness: under `cfg429` a first-attempt 400 response is returned
as-is with one attempt and no sleep, and a first-attempt non-network
failure is raised with one attempt and no sleep. -/
theorem non_retryable_first_outcome_immediate_witness :
    execute_with_retry cfg429 attempts400 =
      ⟨RunResult.returned ⟨400, "bad request"⟩, [], 1⟩
    ∧ execute_with_retry cfg429 attemptsValueError =
      ⟨RunResult.raised (ExcKind.otherError "ValueError"), [], 1⟩ :=
  ⟨(non_retryable_first_outcome_immediate cfg429 attempts400).1
      ⟨400, "bad request"⟩ rfl (by decide),
   (non_retryable_first_outcome_immediate cfg429 attemptsValueError).2
      (ExcKind.otherError "ValueError") rfl
      (by decide) (by decide) (by decide)⟩

/-! ## Streaming relay (`utils/streaming.py`)

A raw upstream chunk is a list of bytes.  `bytes.decode("utf-8")` is
modelled by a strict UTF-8 decoder: continuation bytes must match,
overlong encodings, surrogates and out-of-range code points are
rejected, exactly the inputs on which Python raises
`UnicodeDecodeError`. -/

def isCont (b : Nat) : Bool := 128 ≤ b && b < 192

/-- Strict UTF-8 decoding of a byte list into code points
(model of `bytes.decode("utf-8")`; `none` models `UnicodeDecodeError`). -/
def utf8DecodeChars : List Nat → Option (List Char)
  | [] => some []
  | b :: rest =>
    if b < 128 then
      (utf8DecodeChars rest).map (fun cs => Char.ofNat b :: cs)
    else if b < 194 then none
    else if b < 224 then
      match rest with
      | b2 :: rest2 =>
        if isCont b2 then
          (utf8DecodeChars rest2).map
            (fun cs => Char.ofNat ((b - 192) * 64 + (b2 - 128)) :: cs)
        else none
      | _ => none
    else if b < 240 then
      match rest with
      | b2 :: b3 :: rest3 =>
        if isCont b2 && isCont b3 then
          let cp := (b - 224) * 4096 + (b2 - 128) * 64 + (b3 - 128)
          if 2048 ≤ cp && !(55296 ≤ cp && cp ≤ 57343) then
            (utf8DecodeChars rest3).map (fun cs => Char.ofNat cp :: cs)
          else none
        else none
      | _ => none
    else if b < 245 then
      match rest with
      | b2 :: b3 :: b4 :: rest4 =>
        if isCont b2 && isCont b3 && isCont b4 then
          let cp := (b - 240) * 262144 + (b2 - 128) * 4096 +
            (b3 - 128) * 64 + (b4 - 128)
          if 65536 ≤ cp && cp ≤ 1114111 then
            (utf8DecodeChars rest4).map (fun cs => Char.ofNat cp :: cs)
          else none
        else none
      | _ => none
    else none

def utf8Decode (bs : List Nat) : Option String :=
  (utf8DecodeChars bs).map fun cs => String.mk cs

/-- One character of `json.dumps` string escaping (default
`ensure_ascii=True`): quote, backslash and the named control escapes,
`\uXXXX` for other control and non-ASCII characters (surrogate pairs
above the BMP). -/
def hexDigit (n : Nat) : Char :=
  if n < 10 then Char.ofNat (48 + n) else Char.ofNat (87 + n)

def hex4 (n : Nat) : String :=
  String.mk [hexDigit (n / 4096 % 16), hexDigit (n / 256 % 16),
    hexDigit (n / 16 % 16), hexDigit (n % 16)]

def jsonEscapeChar (c : Char) : String :=
  if c = '"' then "\\\""
  else if c = '\\' then "\\\\"
  else if c = '\n' then "\\n"
  else if c = '\t' then "\\t"
  else if c = '\r' then "\\r"
  else if c = Char.ofNat 8 then "\\b"
  else if c = Char.ofNat 12 then "\\f"
  else if c.toNat < 32 || 127 ≤ c.toNat then
    if c.toNat < 65536 then "\\u" ++ hex4 c.toNat
    else
      "\\u" ++ hex4 (55296 + (c.toNat - 65536) / 1024) ++
      "\\u" ++ hex4 (56320 + (c.toNat - 65536) % 1024)
  else String.mk [c]

def jsonEscape (s : String) : String :=
  String.join (s.data.map jsonEscapeChar)

/-- `json.dumps({"error": {"message": f"Streaming error: {e}",
"type": "stream_error"}})` (streaming.py, lines 41-46), for an exception
whose `str` is `msg`. -/
def stream_error_data (msg : String) : String :=
  "\x7b\"error\": \x7b\"message\": \"" ++
    jsonEscape ("Streaming error: " ++ msg) ++
    "\", \"type\": \"stream_error\"\x7d\x7d"

/-- The synthetic terminal SSE frame `f"data: {error_data}\n\n"`
(streaming.py, line 47). -/
def stream_error_frame (msg : String) : String :=
  "data: " ++ stream_error_data msg ++ "\n\n"

/-- The `async for` body of `stream_response` (streaming.py, lines
24-36): empty chunks are skipped, undecodable chunks are logged and
skipped, decoded chunks are yielded verbatim. -/
def forwardChunks (chunks : List (List Nat)) : List String :=
  chunks.filterMap fun chunk =>
    if chunk = [] then none
    else
      match utf8Decode chunk with
      | some text => some text
      | none => none

/-- `stream_response` (streaming.py, lines 10-47).  The upstream
iterator is modelled by the chunks it delivers followed by what ends it:
`none` for natural completion, `some msg` for a read failure whose
`str` is `msg`.  The returned list is the full sequence of frames the
relay yields to its consumer; the function is total, i.e. no upstream
failure propagates past the relay. -/
def stream_response (chunks : List (List Nat)) (failure : Option String) :
    List String :=
  forwardChunks chunks ++
    match failure with
    | none => []
    | some msg => [stream_error_frame msg]

theorem forwardChunks_cons_of_decode (c : List Nat) (cs : List (List Nat))
    (t : String) (hc : c ≠ []) (hd : utf8Decode c = some t) :
    forwardChunks (c :: cs) = t :: forwardChunks cs := by
  simp [forwardChunks, List.filterMap_cons, hc, hd]

theorem forwardChunks_filter (chunks : List (List Nat)) :
    forwardChunks (chunks.filter (fun c => !c.isEmpty)) =
      forwardChunks chunks := by
  induction chunks with
  | nil => rfl
  | cons c cs ih =>
    simp only [forwardChunks] at ih ⊢
    cases c with
    | nil => simpa [List.filter_cons, List.filterMap_cons] using ih
    | cons b bs => simp [List.filter_cons, List.filterMap_cons, ih]

/-- C2: when the upstream delivers non-empty decodable chunks and then
raises, the relay yields exactly the decoded frames in order, followed
by exactly one synthetic terminal frame — an SSE `data:` line carrying
the serialized `{"error": {"message": ..., "type": "stream_error"}}`
object followed by a blank line — and then ends the sequence; the
upstream failure never propagates as an exception (`stream_response` is
a total function into frame lists). -/
theorem stream_failure_emits_terminal_frame (chunks : List (List Nat))
    (texts : List String) (msg : String)
    (hdec : chunks.map utf8Decode = texts.map some)
    (hne : ∀ c ∈ chunks, ¬c.isEmpty) :
    stream_response chunks (some msg) = texts ++ [stream_error_frame msg]
    ∧ stream_error_frame msg = "data: " ++ stream_error_data msg ++ "\n\n" := by
  refine ⟨?_, rfl⟩
  have hforward : forwardChunks chunks = texts := by
    induction chunks generalizing texts with
    | nil =>
      cases texts with
      | nil => rfl
      | cons t ts => simp at hdec
    | cons c cs ih =>
      cases texts with
      | nil => simp at hdec
      | cons t ts =>
        simp only [List.map_cons, List.cons.injEq] at hdec
        rw [forwardChunks_cons_of_decode c cs t
          (by simpa using hne c (List.mem_cons_self _ _)) hdec.1]
        rw [ih ts hdec.2 (fun c' hc' => hne c' (List.mem_cons_of_mem _ hc'))]
  simp [stream_response, hforward]

/-- C2 witness: two ASCII chunks (`"hi"` and `"!"`) followed by an
upstream failure with message `"boom"`. -/
theorem stream_failure_emits_terminal_frame_witness :
    stream_response [[104, 105], [33]] (some "boom") =
      ["hi", "!", stream_error_frame "boom"]
    ∧ stream_error_frame "boom" =
      "data: " ++ stream_error_data "boom" ++ "\n\n" :=
  stream_failure_emits_terminal_frame [[104, 105], [33]] ["hi", "!"] "boom"
    (by decide) (by decide)

/-- C10: the relay silently skips empty byte chunks — filtering out the
empty chunks does not change the yielded frame sequence — and every
forwarded frame is the UTF-8 decoding of some non-empty chunk. -/
theorem empty_chunks_skipped (chunks : List (List Nat))
    (failure : Option String) :
    stream_response chunks failure =
      stream_response (chunks.filter (fun c => !c.isEmpty)) failure
    ∧ ∀ t, t ∈ stream_response chunks none →
        ∃ c, c ∈ chunks ∧ c ≠ [] ∧ utf8Decode c = some t := by
  constructor
  · simp [stream_response, forwardChunks_filter]
  · intro t ht
    simp only [stream_response, forwardChunks, List.append_nil] at ht
    obtain ⟨c, hc, hg⟩ := List.mem_filterMap.mp ht
    by_cases hce : c = []
    · subst hce
      simp at hg
    · refine ⟨c, hc, hce, ?_⟩
      rw [if_neg hce] at hg
      cases hdec : utf8Decode c with
      | none => simp [hdec] at hg
      | some s =>
        simp [hdec] at hg
        rw [hg]

/-- C10 witness: the stream `["h", b"", "i"]` with an interleaved empty
chunk yields the same frames as without it, and its frame `"h"` is the
decoding of the non-empty chunk `[104]`. -/
theorem empty_chunks_skipped_witness :
    stream_response [[104], [], [105]] none =
      stream_response [[104], [105]] none
    ∧ ∃ c, c ∈ [[104], [], [105]] ∧ c ≠ [] ∧ utf8Decode c = some "h" :=
  ⟨by
    have h := (empty_chunks_skipped [[104], [], [105]] none).1
    simpa using h,
   (empty_chunks_skipped [[104], [], [105]] none).2 "h" (by decide)⟩

/-! ## Header rewrite engine (`middleware/headers.py`)

Header maps are ordered string dictionaries (`dget`/`dinsert` above).
The compiled drop patterns produced by `re.compile(pattern,
re.IGNORECASE)` are modelled at the `re` boundary as match functions
`String → Bool` (the `pattern.match` test); an invalid pattern makes
the model's `re_compile` return `none`, modelling the caught
`re.error`. -/

structure HeaderRuleConfig where
  drop_all : Bool := false
  drop_headers : List String := []
  add_headers : List (String × String) := []
  force_headers : List (String × String) := []

/-- Python `str.lower()` (the headers are ASCII; per-character
lowercasing models it). -/
def pyLower (s : String) : String :=
  String.mk (s.data.map Char.toLower)

/-- The characters of the raw string `.*+?[]{}()^$|\\` used by
`HeaderManipulator.__init__` to classify a drop rule as a regex
pattern. -/
def regexSpecialChars : List Char :=
  ['.', '*', '+', '?', '[', ']', '\x7b', '\x7d', '(', ')', '^', '$', '|', '\\']

/-- State built by `HeaderManipulator.__init__` (headers.py, lines
15-37). -/
structure HeaderManipulator where
  config : HeaderRuleConfig
  compiled_drop_patterns : List (String → Bool) := []
  exact_drop_headers : List String := []

/-- `HeaderManipulator.__init__` (headers.py, lines 15-37): each drop
rule containing a regex special character is compiled (a compile
failure is logged and the rule skipped), every other rule is stored
lowercased for exact case-insensitive matching. -/
def HeaderManipulator.init (re_compile : String → Option (String → Bool))
    (config : HeaderRuleConfig) : HeaderManipulator :=
  config.drop_headers.foldl
    (fun st pattern =>
      if regexSpecialChars.any (fun ch => pattern.data.contains ch) then
        match re_compile pattern with
        | some m =>
          { st with compiled_drop_patterns := st.compiled_drop_patterns ++ [m] }
        | none => st
      else
        { st with
            exact_drop_headers := st.exact_drop_headers ++ [pyLower pattern] })
    { config := config }

/-- `HeaderManipulator._should_drop_header` (headers.py, lines 39-57). -/
def should_drop_header (st : HeaderManipulator) (header_name : String) : Bool :=
  st.exact_drop_headers.contains (pyLower header_name)
    || st.compiled_drop_patterns.any (fun p => p header_name)

/-- `HeaderManipulator.process_headers` (headers.py, lines 59-92):
start from `{}` (drop_all) or the incoming map minus dropped names;
insert `add_headers` entries only when absent; insert `force_headers`
entries unconditionally. -/
def process_headers (st : HeaderManipulator)
    (headers : List (String × String)) : List (String × String) :=
  let result :=
    if st.config.drop_all then []
    else headers.filter (fun kv => !should_drop_header st kv.1)
  let result := st.config.add_headers.foldl
    (fun r kv => if dcontains r kv.1 then r else dinsert r kv.1 kv.2) result
  st.config.force_headers.foldl (fun r kv => dinsert r kv.1 kv.2) result

/-- The claim's per-input property for C6: every output entry whose
name collides case-insensitively with a `force_headers` key carries the
forced value. -/
def ForceWinsCaseInsensitive (st : HeaderManipulator)
    (headers : List (String × String)) : Prop :=
  ∀ k v, (k, v) ∈ process_headers st headers →
    ∀ fk fv, (fk, fv) ∈ st.config.force_headers →
      pyLower k = pyLower fk → v = fv

/-- A model of `re.compile` for configurations with no pattern-classified
drop rules (it is never consulted by the witnesses below). -/
def reCompileUnused : String → Option (String → Bool) := fun _ => none

/-- A policy forcing the lowercase header `x-key`. -/
def hmForce : HeaderManipulator :=
  HeaderManipulator.init reCompileUnused { force_headers := [("x-key", "b")] }

/-- C6 counterexample: with `forceHeaders = {"x-key": "b"}` and incoming
header `X-Key: a`, the incoming entry survives in the output with its
incoming value `a` even though its name collides case-insensitively
with the forced key — `force_headers` insertion uses exact-case dict
keys, so the claim's case-insensitive collision guarantee is false. -/
theorem force_headers_case_collision_cex :
    ¬ ForceWinsCaseInsensitive hmForce [("X-Key", "a")]
    ∧ process_headers hmForce [("X-Key", "a")] =
        [("X-Key", "a"), ("x-key", "b")] := by
  constructor
  · intro h
    have ha : ("X-Key", "a") ∈ process_headers hmForce [("X-Key", "a")] := by
      decide
    have := h "X-Key" "a" ha "x-key" "b" (by decide) (by decide)
    exact absurd this (by decide)
  · decide

/-- C6 (amended): every `(k, v)` entry of `forceHeaders` is present in
the output with value `v` — `forceHeaders` wins every exact-key
collision with the incoming map and with `addHeaders` — for any policy
state and incoming headers (`force_headers` is a Python dict, hence its
keys are distinct). -/
theorem force_headers_exact_key_wins (st : HeaderManipulator)
    (headers : List (String × String)) (k v : String)
    (hnd : (st.config.force_headers.map Prod.fst).Nodup)
    (hmem : (k, v) ∈ st.config.force_headers) :
    dget (process_headers st headers) k = some v := by
  unfold process_headers
  exact dget_foldl_dinsert_of_mem _ _ k v hnd hmem

/-- C6 amended-claim witness: the forced entry `x-key: b` is looked up
in the output with exactly the forced value. -/
theorem force_headers_exact_key_wins_witness :
    dget (process_headers hmForce [("X-Key", "a")]) "x-key" = some "b" :=
  force_headers_exact_key_wins hmForce [("X-Key", "a")] "x-key" "b"
    (by decide) (by decide)

/-! ## Content transform pipeline (`middleware/transform.py`)

Python string helpers used by the pipeline, modelled over the character
lists of the strings (`str.split(sep)`, `str.replace(old, new)`,
`int(...)` on a digit string, `str.startswith("[") and
str.endswith("]")`, `str.strip()`). -/

def splitOnCharAux (sep : Char) : List Char → List Char → List String
  | [], acc => [String.mk acc.reverse]
  | c :: rest, acc =>
    if c = sep then String.mk acc.reverse :: splitOnCharAux sep rest []
    else splitOnCharAux sep rest (c :: acc)

/-- Python `s.split(sep)` for a one-character separator. -/
def pySplit (s : String) (sep : Char) : List String :=
  splitOnCharAux sep s.data []

def listStartsWith : List Char → List Char → Bool
  | _, [] => true
  | [], _ :: _ => false
  | c :: cs, p :: ps => c = p && listStartsWith cs ps

def replaceAux (pat repl : List Char) : Nat → List Char → List Char
  | 0, s => s
  | _ + 1, [] => []
  | fuel + 1, c :: cs =>
    if listStartsWith (c :: cs) pat then
      repl ++ replaceAux pat repl fuel (cs.drop (pat.length - 1))
    else c :: replaceAux pat repl fuel cs

/-- Python `s.replace(pat, repl)` (all occurrences, left to right;
the callers only use non-empty patterns). -/
def pyReplace (s pat repl : String) : String :=
  if pat.data.isEmpty then s
  else String.mk (replaceAux pat.data repl.data s.data.length s.data)

/-- Python `int(s)` on the inside of a `[i]` path segment: digits only,
`none` models a raised `ValueError`. -/
def digitsToNat? (cs : List Char) : Option Nat :=
  if cs.isEmpty then none
  else if cs.all (fun c => c.isDigit) then
    some (cs.foldl (fun n c => n * 10 + (c.toNat - 48)) 0)
  else none

/-- Python `part.startswith("[") and part.endswith("]")`. -/
def isBracketSeg (s : String) : Bool :=
  s.data.head? == some '[' && s.data.getLast? == some ']'

/-- The index text between the brackets: Python `part[1:-1]`. -/
def bracketIdx (s : String) : Option Nat :=
  digitsToNat? (s.data.drop 1).dropLast

/-- Python `str.strip()`. -/
def pyStrip (s : String) : String :=
  String.mk (((s.data.dropWhile Char.isWhitespace).reverse.dropWhile
    Char.isWhitespace).reverse)

inductive TType where
  | regex_replace : TType
  | jsonpath_drop : TType
  | jsonpath_add : TType
  | unknownType (s : String) : TType
deriving DecidableEq, Repr

/-- `TransformationConfig` from `config.py` plus the state the pipeline
attaches to it.  The external engines are modelled at their call
boundary: `compiled` is `_compiled_pattern` as the whole-text
substitution `s ↦ pattern.sub(replacement or "", s)` it provides
(absent when `_compile_patterns` did not set it); `parsed` is the
matcher `jsonpath_parse(path)` provides, giving for a body the
`str(match.full_path)` strings of `parse(path).find(body)` in order
(`none` models `jsonpath_parse` raising). -/
structure TransformationConfig where
  name : String := ""
  ttype : TType
  enabled : Bool := true
  pattern : Option String := none
  replacement : Option String := none
  flags : Option String := none
  path : Option String := none
  value : Option JSON := none
  compiled : Option (String → String) := none
  parsed : Option (JSON → List String) := none

/-- The `flag_map` lookup of `_compile_patterns` (transform.py, lines
31-39): `re.IGNORECASE = 2`, `re.MULTILINE = 8`, `re.DOTALL = 16`,
unknown names contribute 0. -/
def flagValue (s : String) : Nat :=
  if s = "IGNORECASE" then 2
  else if s = "MULTILINE" then 8
  else if s = "DOTALL" then 16
  else 0

def flagsOf : Option String → Nat
  | none => 0
  | some fs =>
    if fs = "" then 0
    else (pySplit fs '|').foldl (fun acc nm => acc ||| flagValue (pyStrip nm)) 0

/-- One step of `ContentTransformer._compile_patterns` (transform.py,
lines 27-43) on one rule: `re.compile` is modelled by `re_compile`
taking the pattern and the flag bits; `none` models `re.error`, which
the source does **not** catch, so it propagates out of `__init__`. -/
def compile_one (re_compile : String → Nat → Option (String → String))
    (t : TransformationConfig) : Except Unit TransformationConfig :=
  if t.ttype = TType.regex_replace then
    match t.pattern with
    | some p =>
      if p = "" then Except.ok t
      else
        match re_compile p (flagsOf t.flags) with
        | some m => Except.ok { t with compiled := some m }
        | none => Except.error ()
    | none => Except.ok t
  else Except.ok t

/-- `ContentTransformer.__init__` (transform.py, lines 18-25): keep the
enabled rules, then `_compile_patterns`; a compile failure propagates
(`Except.error`). -/
def ContentTransformer_init
    (re_compile : String → Nat → Option (String → String))
    (transformations : List TransformationConfig) :
    Except Unit (List TransformationConfig) :=
  (transformations.filter (fun t => t.enabled)).mapM (compile_one re_compile)

/-- `_apply_regex_replace` (transform.py, lines 74-100): no compiled
pattern → warn and return the data; otherwise serialize, substitute,
re-parse; a parse failure (`json.JSONDecodeError`) returns the
pre-stage data.  `dumps`/`loads` are the `json` module at the
boundary. -/
def apply_regex_replace (dumps : JSON → String) (loads : String → Option JSON)
    (config : TransformationConfig) (data : JSON) : JSON :=
  match config.compiled with
  | none => data
  | some sub =>
    match loads (sub (dumps data)) with
    | some j => j
    | none => data

/-- The deepest-first ordering actually implemented: Python
`sorted(matches, key=lambda m: len(str(m.full_path)), reverse=True)`
(transform.py, line 129) — a stable sort on the **string length** of
the full path, longest first.  `dropTrace` is the order in which the
deletion loop visits the matches. -/
def lenGE (a b : String) : Prop := b.length ≤ a.length

instance : DecidableRel lenGE := fun _ b => Nat.decLe b.length _

instance : IsTotal String lenGE := ⟨fun a b => le_total b.length a.length⟩

instance : IsTrans String lenGE := ⟨fun _ _ _ h1 h2 => le_trans h2 h1⟩

def dropTrace (ms : List String) : List String :=
  List.insertionSort lenGE ms

/-- The navigation/deletion of one match (transform.py, lines 131-158),
acting on the document functionally: Python mutates `result` in place
through parent references; the Lean model rebuilds the document along
the visited path, which yields the same final value.  `Except.error`
models an exception escaping this code (caught by the handler at line
163): `parent[idx]` on a non-list or out-of-range index, `.get` on a
non-dict, `int(...)` on a non-numeric segment.  When `.get(part, {})`
falls back to a fresh `{}`, navigation continues on the fresh dict and
its mutations are discarded, exactly as in Python where the fresh dict
is not reachable from `result`. -/
def navDelete : JSON → List String → Except Unit JSON
  | j, [] => Except.ok j
  | j, [last] =>
    match j with
    | JSON.obj fields =>
      -- `if isinstance(parent, dict) and last_part in parent: del parent[last_part]`
      Except.ok (JSON.obj (dremove fields last))
    | JSON.arr items =>
      if isBracketSeg last then
        match bracketIdx last with
        | some idx =>
          Except.ok (if idx < items.length
            then JSON.arr (items.eraseIdx idx) else JSON.arr items)
        | none => Except.error ()
      else Except.ok (JSON.arr items)
    | other => Except.ok other
  | j, part :: rest =>
    if isBracketSeg part then
      match bracketIdx part with
      | none => Except.error ()
      | some idx =>
        match j with
        | JSON.arr items =>
          match items.get? idx with
          | some child =>
            match navDelete child rest with
            | Except.ok child' => Except.ok (JSON.arr (items.set idx child'))
            | Except.error e => Except.error e
          | none => Except.error ()
        | _ => Except.error ()
    else
      match j with
      | JSON.obj fields =>
        match dget fields part with
        | some child =>
          match navDelete child rest with
          | Except.ok child' => Except.ok (JSON.obj (dinsert fields part child'))
          | Except.error e => Except.error e
        | none =>
          match navDelete (JSON.obj []) rest with
          | Except.ok _ => Except.ok (JSON.obj fields)
          | Except.error e => Except.error e
      | _ => Except.error ()

/-- Delete one match given its `str(match.full_path)` (transform.py,
lines 132-158): split on `"."`; a single segment deletes a top-level
key, a multi-segment path navigates and deletes from the immediate
parent. -/
def deleteMatch (j : JSON) (fullPath : String) : Except Unit JSON :=
  navDelete j (pySplit fullPath '.')

def foldDeletes : JSON → List String → Except Unit JSON
  | j, [] => Except.ok j
  | j, m :: ms =>
    match deleteMatch j m with
    | Except.ok j' => foldDeletes j' ms
    | Except.error e => Except.error e

/-- `_apply_jsonpath_drop` (transform.py, lines 102-165). -/
def apply_jsonpath_drop (config : TransformationConfig) (data : JSON) : JSON :=
  match config.path with
  | none => data
  | some p =>
    if p = "" then data
    else
      match config.parsed with
      | none => data      -- `jsonpath_parse` raised; caught at line 163
      | some find =>
        if (find data).isEmpty then data
        else
          match foldDeletes data (dropTrace (find data)) with
          | Except.ok result => result
          | Except.error _ => data

/-- The navigation of `_apply_jsonpath_add` (transform.py, lines
189-199): walk the dot segments creating `{}` at missing intermediate
keys, then assign the configured value at the final segment.
`Except.error` models a `TypeError` escaping (membership test or item
assignment on a non-dict), caught by the handler at line 204. -/
def addNav (v : JSON) : JSON → List String → Except Unit JSON
  | j, [] => Except.ok j
  | j, [last] =>
    match j with
    | JSON.obj fields => Except.ok (JSON.obj (dinsert fields last v))
    | _ => Except.error ()
  | j, part :: rest =>
    match j with
    | JSON.obj fields =>
      match dget fields part with
      | some child =>
        match addNav v child rest with
        | Except.ok child' => Except.ok (JSON.obj (dinsert fields part child'))
        | Except.error e => Except.error e
      | none =>
        match addNav v (JSON.obj []) rest with
        | Except.ok child' => Except.ok (JSON.obj (dinsert fields part child'))
        | Except.error e => Except.error e
    | _ => Except.error ()

/-- `_apply_jsonpath_add` (transform.py, lines 167-206). -/
def apply_jsonpath_add (config : TransformationConfig) (data : JSON) : JSON :=
  match config.path, config.value with
  | some p, some v =>
    if p = "" then data
    else
      match addNav v data (pySplit (pyReplace p "$." "") '.') with
      | Except.ok result => result
      | Except.error _ => data
  | _, _ => data

/-- The body of the per-rule loop of `transform_request` (transform.py,
lines 56-70): dispatch on the rule type; an unknown type logs a warning
and leaves the body unchanged. -/
def applyRule (dumps : JSON → String) (loads : String → Option JSON)
    (tc : TransformationConfig) (data : JSON) : JSON :=
  match tc.ttype with
  | TType.regex_replace => apply_regex_replace dumps loads tc data
  | TType.jsonpath_drop => apply_jsonpath_drop tc data
  | TType.jsonpath_add => apply_jsonpath_add tc data
  | TType.unknownType _ => data

/-- `ContentTransformer.transform_request` (transform.py, lines 45-72)
on the enabled rule list produced by `ContentTransformer_init`. -/
def transform_request (dumps : JSON → String) (loads : String → Option JSON)
    (rules : List TransformationConfig) (data : JSON) : JSON :=
  rules.foldl (fun acc tc => applyRule dumps loads tc acc) data

/-- Specification-side view of one stage: `Except.error` collects
exactly the conditions under which the stage raises or fails to produce
a well-formed JSON object (re-parse failure after a regex substitution,
`jsonpath_parse` raising, a deletion or an add-navigation raising);
`Except.ok` is the JSON object the stage produces.  The correspondence
with the executable `applyRule` is proven below. -/
def stageResult (dumps : JSON → String) (loads : String → Option JSON)
    (tc : TransformationConfig) (data : JSON) : Except Unit JSON :=
  match tc.ttype with
  | TType.regex_replace =>
    match tc.compiled with
    | none => Except.ok data
    | some sub =>
      match loads (sub (dumps data)) with
      | some j => Except.ok j
      | none => Except.error ()
  | TType.jsonpath_drop =>
    match tc.path with
    | none => Except.ok data
    | some p =>
      if p = "" then Except.ok data
      else
        match tc.parsed with
        | none => Except.error ()
        | some find =>
          if (find data).isEmpty then Except.ok data
          else foldDeletes data (dropTrace (find data))
  | TType.jsonpath_add =>
    match tc.path, tc.value with
    | some p, some v =>
      if p = "" then Except.ok data
      else addNav v data (pySplit (pyReplace p "$." "") '.')
    | _, _ => Except.ok data
  | TType.unknownType _ => Except.ok data

/-- A failed stage leaves the body unchanged; a successful stage yields
its produced object. -/
theorem applyRule_eq_stageResult (dumps : JSON → String)
    (loads : String → Option JSON) (tc : TransformationConfig) (data : JSON) :
    applyRule dumps loads tc data =
      match stageResult dumps loads tc data with
      | Except.ok j => j
      | Except.error _ => data := by
  cases htt : tc.ttype with
  | regex_replace =>
    cases hc : tc.compiled with
    | none => simp [applyRule, stageResult, apply_regex_replace, htt, hc]
    | some sub =>
      cases hl : loads (sub (dumps data)) with
      | none => simp [applyRule, stageResult, apply_regex_replace, htt, hc, hl]
      | some j => simp [applyRule, stageResult, apply_regex_replace, htt, hc, hl]
  | jsonpath_drop =>
    cases hp : tc.path with
    | none => simp [applyRule, stageResult, apply_jsonpath_drop, htt, hp]
    | some p =>
      by_cases hpe : p = ""
      · simp [applyRule, stageResult, apply_jsonpath_drop, htt, hp, hpe]
      · cases hpar : tc.parsed with
        | none =>
          simp [applyRule, stageResult, apply_jsonpath_drop, htt, hp, hpe, hpar]
        | some find =>
          by_cases hm : (find data).isEmpty
          · simp [applyRule, stageResult, apply_jsonpath_drop, htt, hp, hpe,
              hpar, hm]
          · cases hf : foldDeletes data (dropTrace (find data)) with
            | ok r =>
              simp [applyRule, stageResult, apply_jsonpath_drop, htt, hp, hpe,
                hpar, hm, hf]
            | error e =>
              simp [applyRule, stageResult, apply_jsonpath_drop, htt, hp, hpe,
                hpar, hm, hf]
  | jsonpath_add =>
    cases hp : tc.path with
    | none => simp [applyRule, stageResult, apply_jsonpath_add, htt, hp]
    | some p =>
      cases hv : tc.value with
      | none => simp [applyRule, stageResult, apply_jsonpath_add, htt, hp, hv]
      | some v =>
        by_cases hpe : p = ""
        · simp [applyRule, stageResult, apply_jsonpath_add, htt, hp, hv, hpe]
        · cases ha : addNav v data (pySplit (pyReplace p "$." "") '.') with
          | ok r =>
            simp [applyRule, stageResult, apply_jsonpath_add, htt, hp, hv,
              hpe, ha]
          | error e =>
            simp [applyRule, stageResult, apply_jsonpath_add, htt, hp, hv,
              hpe, ha]
  | unknownType s => simp [applyRule, stageResult, htt]

/-- C3: each rule executes against the output of the previous rule
(the pipeline decomposes stage by stage), and a rule whose stage raises
or fails to produce a well-formed JSON object passes the pre-stage body
unchanged into the next rule; the pipeline is a total function, so one
broken rule never aborts the request and never alters the input seen by
sibling rules. -/
theorem transform_stage_isolation (dumps : JSON → String)
    (loads : String → Option JSON) (r : TransformationConfig)
    (rules : List TransformationConfig) (b : JSON) :
    transform_request dumps loads (r :: rules) b =
      transform_request dumps loads rules (applyRule dumps loads r b)
    ∧ (∀ e, stageResult dumps loads r b = Except.error e →
        applyRule dumps loads r b = b) := by
  refine ⟨rfl, ?_⟩
  intro e he
  rw [applyRule_eq_stageResult, he]

/-- Arbitrary concrete stand-ins for the `json` module boundary; the
witness rule below never consults them. -/
def dumpsUnused : JSON → String := fun _ => ""

def loadsUnused : String → Option JSON := fun _ => none

/-- A `jsonpath_drop` rule whose deletion raises: the match path
`[0].a` indexes the top-level dict as a list, so `parent[idx]` raises
and the stage fails. -/
def rDropBad : TransformationConfig :=
  { name := "drop-bad", ttype := TType.jsonpath_drop, path := some "$..a",
    parsed := some (fun _ => ["[0].a"]) }

/-- C3 witness: the failing drop stage leaves the body `{"k": 1}`
unchanged. -/
theorem transform_stage_isolation_witness :
    applyRule dumpsUnused loadsUnused rDropBad (JSON.obj [("k", JSON.num 1)]) =
      JSON.obj [("k", JSON.num 1)] :=
  (transform_stage_isolation dumpsUnused loadsUnused rDropBad []
    (JSON.obj [("k", JSON.num 1)])).2 () rfl

/-- Number of dot segments of a `str(full_path)` — the *path depth* the
claim says the matches are sorted by. -/
def pathDepth (p : String) : Nat := (pySplit p '.').length

/-- Deepest-first order on a deletion trace: every earlier entry is at
least as deep as every later one. -/
def DeepestFirst (l : List String) : Prop :=
  l.Pairwise (fun a b => pathDepth b ≤ pathDepth a)

/-- C7 counterexample: on matches `aaaa` (depth 1, string length 4) and
`b.c` (depth 2, string length 3) — as produced e.g. by the path `$..*`
on the body `{"aaaa": 1, "b": {"c": 2}}` — the deletion loop visits
`aaaa` first, so the matches are **not** deleted sorted by path depth,
deepest first: the sort key is the string length of the full path. -/
theorem drop_order_not_depth_sorted_cex :
    dropTrace ["aaaa", "b.c"] = ["aaaa", "b.c"]
    ∧ pathDepth "aaaa" < pathDepth "b.c"
    ∧ ¬DeepestFirst (dropTrace ["aaaa", "b.c"]) := by
  refine ⟨rfl, by decide, ?_⟩
  intro h
  rw [show dropTrace ["aaaa", "b.c"] = ["aaaa", "b.c"] from rfl] at h
  have hle := (List.pairwise_cons.mp h).1 "b.c" (by simp)
  exact absurd hle (by decide)

/-- The worked example's rule: a single `jsonpath_drop` whose path
matches both `$.a` and `$.a.b`, i.e. whose `jsonpath_ng` matcher
reports the full paths `a` and `a.b`. -/
def dropBothRule : TransformationConfig :=
  { name := "drop-a-and-a-b", ttype := TType.jsonpath_drop,
    path := some "$.a | $.a.b",
    parsed := some (fun _ => ["a", "a.b"]) }

def exampleBody : JSON :=
  JSON.obj [("a", JSON.obj [("b", JSON.num 1), ("c", JSON.num 2)])]

/-- C7 (amended): all matching locations are collected first and then
deleted sorted by the **string length** of their full path, longest
first (a stable sort).  Because an enclosing path's string is a proper
prefix — hence strictly shorter — than any path nested below it, a
nested field is still always removed before an enclosing one: in a
trace, no strictly shorter path is ever followed by a longer one.  In
particular, on body `{"a": {"b": 1, "c": 2}}` with a single rule
matching both `$.a.b` and `$.a`, the loop removes `a.b` before `a` and
the final result is `{}`. -/
theorem drop_deletes_longest_path_first :
    (∀ ms : List String,
      List.Perm (dropTrace ms) ms ∧ (dropTrace ms).Pairwise lenGE)
    ∧ (∀ (ms l1 l2 : List String) (p q : String), p.length < q.length →
        dropTrace ms = l1 ++ p :: l2 → q ∉ l2)
    ∧ dropTrace ["a", "a.b"] = ["a.b", "a"]
    ∧ apply_jsonpath_drop dropBothRule exampleBody = JSON.obj [] := by
  refine ⟨?_, ?_, rfl, rfl⟩
  · exact fun ms =>
      ⟨List.perm_insertionSort lenGE ms, List.sorted_insertionSort lenGE ms⟩
  · intro ms l1 l2 p q hlen htr hq
    have hp : (dropTrace ms).Pairwise lenGE := List.sorted_insertionSort lenGE ms
    rw [htr] at hp
    have hpl : (p :: l2).Pairwise lenGE := (List.pairwise_append.mp hp).2.1
    have hle : lenGE p q := (List.pairwise_cons.mp hpl).1 q hq
    unfold lenGE at hle
    omega

/-- C7 amended-claim witness: in the trace of matches
`["aa", "b.c", "x"]` — sorted to `["b.c", "aa", "x"]` — the longer path
`b.c` does not occur after the shorter `aa`. -/
theorem drop_deletes_longest_path_first_witness :
    ("b.c" : String) ∉ (["x"] : List String) :=
  drop_deletes_longest_path_first.2.1 ["aa", "b.c", "x"] ["b.c"] ["x"]
    "aa" "b.c" (by decide) rfl

/-- The second rule of the spec's rule-failure-isolation example:
`jsonPathAdd path="$.x" value=1`. -/
def addXRule : TransformationConfig :=
  { name := "add-x", ttype := TType.jsonpath_add, path := some "$.x",
    value := some (JSON.num 1) }

/-- A `regex_replace` rule whose pattern `"("` is an unparsable regex
(missing closing parenthesis). -/
def badPatternRule : TransformationConfig :=
  { name := "bad-regex", ttype := TType.regex_replace, pattern := some "(" }

/-- A `regex_replace` rule with no pattern at all: `_compile_patterns`
skips it, so it reaches apply time without a compiled pattern. -/
def noPatternRule : TransformationConfig :=
  { name := "no-pattern", ttype := TType.regex_replace }

/-- A model of `re.compile(...).sub`: compiling the unparsable pattern
`"("` raises `re.error` (returns `none`); every other pattern compiles
(the substitution itself is irrelevant to the theorems below). -/
def reCompileStrict : String → Nat → Option (String → String) :=
  fun p _ => if p = "(" then none else some (fun s => s)

/-- C8 counterexample: constructing the pipeline with a `regex_replace`
rule whose pattern is an unparsable regex **is** a fatal error —
`_compile_patterns` calls `re.compile` with no handler, so the
`re.error` propagates out of `ContentTransformer.__init__` and no rule
list is ever produced, hence the pipeline `[regexReplace("("),
jsonPathAdd $.x = 1]` can never run at all. -/
theorem invalid_pattern_construction_fatal_cex :
    ContentTransformer_init reCompileStrict [badPatternRule, addXRule] =
      Except.error ()
    ∧ ¬∃ rules, ContentTransformer_init reCompileStrict
        [badPatternRule, addXRule] = Except.ok rules := by
  refine ⟨rfl, ?_⟩
  rintro ⟨rules, h⟩
  rw [show ContentTransformer_init reCompileStrict [badPatternRule, addXRule] =
    Except.error () from rfl] at h
  exact absurd h (by simp)

/-- C8 (amended): an unparsable regex pattern makes pipeline
construction raise at load time (see the counterexample); it is a
`regex_replace` rule *without a pattern* that is skipped at compile
time, behaves as a no-op at apply time, and blocks nothing: the
pipeline `[regexReplace(no pattern), jsonPathAdd path=$.x value=1]`
constructs successfully and run on `{}` yields `{"x": 1}`. -/
theorem missing_pattern_rule_is_noop
    (rc : String → Nat → Option (String → String)) (dumps : JSON → String)
    (loads : String → Option JSON) :
    ContentTransformer_init rc [noPatternRule, addXRule] =
      Except.ok [noPatternRule, addXRule]
    ∧ transform_request dumps loads [noPatternRule, addXRule] (JSON.obj []) =
      JSON.obj [("x", JSON.num 1)] :=
  ⟨rfl, rfl⟩

/-! ## Provider transport, streaming path (`clients/base.py`)

`BaseClient._stream_request` (base.py, lines 163-207) opens the
streamed connection with a single direct `self.client.stream(...)`
call; the `RetryHandler` is not involved anywhere in this method.  As
with the retry engine, the upstream is modelled by what each successive
connection attempt *would* do (`f : Nat → StreamOpen`), so that the
number of attempts the code consumes is observable and comparable with
`execute_with_retry`. -/

inductive StreamOpen where
  | openRaise (e : ExcKind) : StreamOpen
  | opened (status : Nat) (chunks : List (List Nat))
      (midFail : Option ExcKind) : StreamOpen

/-- `BaseClient._stream_request` (base.py, lines 192-207): open the
stream (one attempt, consuming `f 0` only), `raise_for_status`, then
yield the chunks; any exception is logged and re-raised.  The result is
the list of chunks yielded to the caller together with the exception
that propagated (if any), paired with the number of connection attempts
made. -/
def stream_request (f : Nat → StreamOpen) :
    (List (List Nat) × Option ExcKind) × Nat :=
  match f 0 with
  | StreamOpen.openRaise e => (([], some e), 1)
  | StreamOpen.opened status chunks midFail =>
    if 400 ≤ status then (([], some (ExcKind.httpStatusError status)), 1)
    else ((chunks, midFail), 1)

/-- A retry policy with retries available. -/
def cfgStream : RetryConfig :=
  { max_retries := 2
    retry_status_codes := [429, 500, 502, 503, 504]
    backoff_factor := 2
    initial_delay := 1
    max_delay := 10 }

/-- An upstream whose first connection attempt times out and whose
second attempt would succeed. -/
def streamAttempts : Nat → StreamOpen :=
  fun n =>
    if n = 0 then StreamOpen.openRaise ExcKind.timeoutException
    else StreamOpen.opened 200 [[111, 107]] none

/-- The same upstream behaviour seen through the retry engine's
outcome alphabet. -/
def streamAttemptsAsOutcomes : Nat → Outcome :=
  fun n =>
    if n = 0 then Outcome.raiseExc ExcKind.timeoutException
    else Outcome.resp ⟨200, "ok"⟩

/-- C9 counterexample: a timeout while establishing the streamed
connection is classified retryable by `should_retry` and the policy has
retries available — running the very same upstream behaviour through
`execute_with_retry` succeeds on the second attempt — yet
`_stream_request` makes exactly one connection attempt and propagates
the establishment timeout: streaming sends are never retried, not even
at connection establishment. -/
theorem stream_timeout_not_retried_cex :
    should_retry cfgStream none (some ExcKind.timeoutException) = true
    ∧ cfgStream.max_retries = 2
    ∧ stream_request streamAttempts =
        (([], some ExcKind.timeoutException), 1)
    ∧ (execute_with_retry cfgStream streamAttemptsAsOutcomes).result =
        RunResult.returned ⟨200, "ok"⟩ := by
  refine ⟨rfl, rfl, rfl, ?_⟩
  rfl

/-- C9 (amended): streaming sends bypass the retry engine entirely.
The streamed connection is opened exactly once for every upstream
behaviour; a failure while establishing the streamed connection
propagates immediately to the caller without any retry, and a failure
after bytes begin flowing is likewise terminal for that call (the
already-yielded chunks are followed by the propagated failure). -/
theorem stream_request_never_retries (f : Nat → StreamOpen) :
    (stream_request f).2 = 1
    ∧ (∀ e, f 0 = StreamOpen.openRaise e →
        stream_request f = (([], some e), 1))
    ∧ (∀ status chunks e, f 0 = StreamOpen.opened status chunks (some e) →
        status < 400 → stream_request f = ((chunks, some e), 1)) := by
  refine ⟨?_, ?_, ?_⟩
  · unfold stream_request
    cases f 0 with
    | openRaise e => rfl
    | opened status chunks midFail =>
      by_cases h : 400 ≤ status <;> simp [h]
  · intro e he
    simp [stream_request, he]
  · intro status chunks e he hst
    have h400 : ¬400 ≤ status := by omega
    simp [stream_request, he, h400]

/-- C9 amended-claim witness: the establishment timeout of
`streamAttempts` propagates unchanged after exactly one attempt. -/
theorem stream_request_never_retries_witness :
    stream_request streamAttempts = (([], some ExcKind.timeoutException), 1) :=
  (stream_request_never_retries streamAttempts).2.1
    ExcKind.timeoutException rfl

end LLMRouter
